import Mathlib

/-!
Verification development for the drizzle-mcp repository: a shallow embedding
of the configuration loader (src config.js / ConfigLoader), the database
manager (DatabaseManager), and the MCP server dispatch layer (server.ts),
with theorems settling the frozen claims about them.

External collaborators (node path/fs, the Zod validator runtime, the
better-sqlite3 / postgres drivers, the drizzle-kit subprocess) are modelled
as explicit data: a path model, a file-system map, an executable translation
of the Zod schema, an in-memory relational engine, and an environment record
describing driver availability.
-/

/-! ## JS value model and small JS-semantics helpers -/

/-- Model of a JavaScript/JSON value as loaded from a config module. -/
inductive JsonVal where
  | null
  | bool (b : Bool)
  | num (n : Int)
  | str (s : String)
  | arr (items : List JsonVal)
  | obj (fields : List (String × JsonVal))

/-- JS truthiness of an optional string argument: `undefined` and the empty
string are falsy, every other string is truthy. -/
def jsTruthy : Option String → Bool
  | none => false
  | some s => if s = "" then false else true

/-- Model of `port || 5432`: in JS a port of 0 is falsy and also falls back
to the default. -/
def portOrDefault : Option Int → Int
  | none => 5432
  | some n => if n = 0 then 5432 else n

/-- Whether an Except value is a success. -/
def exOk {ε α : Type} : Except ε α → Bool
  | .ok _ => true
  | .error _ => false

/-! ## Path and file-system model (node:path, node:fs) -/

/-- Whether a path is absolute: it begins with a slash. -/
def isAbsolutePath (p : String) : Bool :=
  p.data.head? = some '/'

/-- Model of node's path.resolve for already-normalized inputs (no dot
segments, cwd without trailing slash): an absolute path is returned as is,
a relative one is joined onto the working directory. -/
def resolvePath (cwd p : String) : String :=
  if isAbsolutePath p then p else cwd ++ "/" ++ p

/-- The characters of a path strictly before its last slash. -/
def beforeLastSlash : List Char → List Char
  | [] => []
  | c :: cs => if cs.contains '/' then c :: beforeLastSlash cs else []

/-- Model of node's path.dirname on normalized paths. -/
def dirname (p : String) : String :=
  let front := beforeLastSlash p.data
  if front.isEmpty then
    if isAbsolutePath p then "/" else "."
  else ⟨front⟩

/-- The file system visible to the loader: a map from absolute path to the
outcome of dynamically importing that module (its effective default export,
or the message of the error thrown during evaluation). -/
structure FileSystem where
  files : List (String × Except String JsonVal)

/-- Model of existsSync. -/
def FileSystem.pathExists (fs : FileSystem) (p : String) : Bool :=
  (fs.files.lookup p).isSome

/-! ## Configuration data model (config.js) -/

/-- The dbCredentials object of a Drizzle config, as typed by the Zod
schema: every field optional. -/
structure DbCredentials where
  url : Option String
  host : Option String
  port : Option Int
  user : Option String
  password : Option String
  database : Option String
  deriving DecidableEq, Repr

/-- A validated Drizzle configuration, the parse result of
DrizzleConfigSchema. The outer schema is passthrough: unknown extra fields
are preserved by the source; they are never interpreted and are omitted
from the model. -/
structure DrizzleConfig where
  out : Option String
  schema : Option (String ⊕ List String)
  dialect : String
  dbCredentials : DbCredentials
  deriving DecidableEq, Repr

/-- Validation issues as (field path, reason) pairs, as produced by Zod. -/
abbrev ConfigIssues := List (String × String)

/-- Issues carried by a failed field parse; empty for a success. -/
def issuesOf {α : Type} : Except ConfigIssues α → ConfigIssues
  | .ok _ => []
  | .error es => es

/-- Parse an optional string field of an object, reporting a type issue at
the given path. Models z.string().optional(). -/
def optStrField (fields : List (String × JsonVal)) (path key : String) :
    Except ConfigIssues (Option String) :=
  match fields.lookup key with
  | none => .ok none
  | some (.str s) => .ok (some s)
  | some _ => .error [(path, "Expected string")]

/-- Parse an optional number field. Models z.number().optional(). -/
def optNumField (fields : List (String × JsonVal)) (path key : String) :
    Except ConfigIssues (Option Int) :=
  match fields.lookup key with
  | none => .ok none
  | some (.num n) => .ok (some n)
  | some _ => .error [(path, "Expected number")]

/-- String extraction used for z.array(z.string()). -/
def asString : JsonVal → Option String
  | .str s => some s
  | _ => none

/-- Parse the schema field: z.string().or(z.array(z.string())).optional(). -/
def parseSchemaField (fields : List (String × JsonVal)) :
    Except ConfigIssues (Option (String ⊕ List String)) :=
  match fields.lookup "schema" with
  | none => .ok none
  | some (.str s) => .ok (some (.inl s))
  | some (.arr items) =>
    match items.mapM asString with
    | some ss => .ok (some (.inr ss))
    | none => .error [("schema", "Expected string or array of strings")]
  | some _ => .error [("schema", "Expected string or array of strings")]

/-- Parse the required dialect field: z.string(). Note that the source
schema accepts ANY string here; it does not restrict the dialect to a
closed set. -/
def parseDialectField (fields : List (String × JsonVal)) :
    Except ConfigIssues String :=
  match fields.lookup "dialect" with
  | none => .error [("dialect", "Required")]
  | some (.str s) => .ok s
  | some _ => .error [("dialect", "Expected string")]

/-- Parse the required dbCredentials object. The inner object is a plain
Zod object (strip mode): unknown keys are dropped. Note that the source
schema does not require url, nor any of host/user/database: all credential
fields are optional. -/
def parseDbCredentials (fields : List (String × JsonVal)) :
    Except ConfigIssues DbCredentials :=
  match fields.lookup "dbCredentials" with
  | none => .error [("dbCredentials", "Required")]
  | some (.obj cf) =>
    let urlR := optStrField cf "dbCredentials.url" "url"
    let hostR := optStrField cf "dbCredentials.host" "host"
    let portR := optNumField cf "dbCredentials.port" "port"
    let userR := optStrField cf "dbCredentials.user" "user"
    let passwordR := optStrField cf "dbCredentials.password" "password"
    let databaseR := optStrField cf "dbCredentials.database" "database"
    match urlR, hostR, portR, userR, passwordR, databaseR with
    | .ok u, .ok h, .ok po, .ok us, .ok pa, .ok da =>
      .ok ⟨u, h, po, us, pa, da⟩
    | _, _, _, _, _, _ =>
      .error (issuesOf urlR ++ issuesOf hostR ++ issuesOf portR ++
        issuesOf userR ++ issuesOf passwordR ++ issuesOf databaseR)
  | some _ => .error [("dbCredentials", "Expected object")]

/-- Executable translation of DrizzleConfigSchema.parse from config.js:
z.object with out/schema optional, dialect a plain required string,
dbCredentials an object of optional typed fields, outer passthrough. -/
def DrizzleConfigSchema_parse (v : JsonVal) :
    Except ConfigIssues DrizzleConfig :=
  match v with
  | .obj fields =>
    let outR := optStrField fields "out" "out"
    let schemaR := parseSchemaField fields
    let dialectR := parseDialectField fields
    let credsR := parseDbCredentials fields
    match outR, schemaR, dialectR, credsR with
    | .ok o, .ok sc, .ok d, .ok c =>
      .ok { out := o, schema := sc, dialect := d, dbCredentials := c }
    | _, _, _, _ =>
      .error (issuesOf outR ++ issuesOf schemaR ++ issuesOf dialectR ++
        issuesOf credsR)
  | _ => .error [("", "Expected object")]

/-! ## ConfigLoader (config.js) -/

/-- Errors thrown by the config loader, one constructor per throw site. -/
inductive ConfigError where
  | notFound (path : String)
  | noConfigFile
  | invalid (issues : ConfigIssues)
  | loadFailed (msg : String)
  | notLoaded
  deriving DecidableEq, Repr

/-- Render a ConfigError to the message string thrown by the source. -/
def ConfigError.message : ConfigError → String
  | .notFound p => "Drizzle config file not found at: " ++ p
  | .noConfigFile =>
    "No drizzle config file found. Please specify a config path or create drizzle.config.ts"
  | .invalid issues =>
    "Invalid Drizzle config file: " ++
      String.intercalate ", " (issues.map fun pr => pr.1 ++ ": " ++ pr.2)
  | .loadFailed m => "Failed to load config file: " ++ m
  | .notLoaded => "No config loaded. Call loadConfig() first."

/-- The ConfigLoader instance state: working directory and the two cache
fields. -/
structure ConfigLoader where
  cwd : String
  config : Option DrizzleConfig
  configPath : Option String
  deriving DecidableEq, Repr

/-- The ordered conventional config file names probed by resolveConfigPath. -/
def configFileNames : List String :=
  ["drizzle.config.ts", "drizzle.config.js", "drizzle.config.mjs"]

/-- ConfigLoader.resolveConfigPath: resolve an explicit path against cwd,
or probe the conventional file names in order and take the first that
exists, failing when none does. -/
def ConfigLoader.resolveConfigPath (cl : ConfigLoader) (fs : FileSystem)
    (configPath : Option String) : Except ConfigError String :=
  if jsTruthy configPath then .ok (resolvePath cl.cwd (configPath.getD ""))
  else
    match (configFileNames.map (resolvePath cl.cwd)).find? fs.pathExists with
    | some p => .ok p
    | none => .error .noConfigFile

/-- The outcome of one loadConfig call: the returned value or thrown error,
the loader state afterwards, and how many file reads / module evaluations
the call performed. -/
structure LoadResult where
  result : Except ConfigError DrizzleConfig
  loader : ConfigLoader
  fileReads : Nat
  deriving Repr

/-- The uncached path of ConfigLoader.loadConfig: resolve, check existence,
dynamically import the module (one file read), validate with the Zod
schema, and cache on success. On failure the loader state is unchanged. -/
def ConfigLoader.loadConfigFresh (cl : ConfigLoader) (fs : FileSystem)
    (configPath : Option String) : LoadResult :=
  match cl.resolveConfigPath fs configPath with
  | .error e => ⟨.error e, cl, 0⟩
  | .ok resolvedPath =>
    match fs.files.lookup resolvedPath with
    | none => ⟨.error (.notFound resolvedPath), cl, 0⟩
    | some (.error msg) => ⟨.error (.loadFailed msg), cl, 1⟩
    | some (.ok raw) =>
      match DrizzleConfigSchema_parse raw with
      | .error issues => ⟨.error (.invalid issues), cl, 1⟩
      | .ok cfg =>
        ⟨.ok cfg, { cl with config := some cfg, configPath := some resolvedPath }, 1⟩

/-- ConfigLoader.loadConfig. The cache-hit test of the source is
`this.config && (!configPath || configPath === this.configPath)`: note that
the given (unresolved) path string is compared against the cached RESOLVED
path. -/
def ConfigLoader.loadConfig (cl : ConfigLoader) (fs : FileSystem)
    (configPath : Option String) : LoadResult :=
  match cl.config with
  | some cfg =>
    if jsTruthy configPath = false ∨ configPath = cl.configPath then
      ⟨.ok cfg, cl, 0⟩
    else cl.loadConfigFresh fs configPath
  | none => cl.loadConfigFresh fs configPath

/-- ConfigLoader.getConfigDirectory. -/
def ConfigLoader.getConfigDirectory (cl : ConfigLoader) :
    Except ConfigError String :=
  match cl.configPath with
  | none => .error .notLoaded
  | some p => .ok (dirname p)

/-! ## In-memory relational engine

Modelled from the spec: the underlying SQL drivers (better-sqlite3,
postgres-js, pg) are external collaborators, treated per section 1 of the
spec as capability providers ("prepare+run a parameterized query",
"enumerate tables", "connection teardown"). The engine below models that
capability at the level of parsed statements: tables hold named columns
and integer-valued rows, INSERT appends a row, SELECT returns all rows. -/

/-- One table of the modelled engine: column names, the creation statement
text retained by the engine catalog, and the stored rows. -/
structure Table where
  cols : List String
  createSql : String
  rows : List (List Int)
  deriving DecidableEq, Repr

/-- The state of one database (an embedded sqlite file or a remote
postgres database): its named tables in creation order. -/
structure MiniDb where
  tables : List (String × Table)
  deriving DecidableEq, Repr

/-- Engine-level failures. -/
inductive SqlErr where
  | noSuchTable (n : String)
  | tableExists (n : String)
  | arityMismatch (n : String)
  deriving DecidableEq, Repr

/-- A SQL statement, at the level the external driver parses it. Query
parameters are already substituted into the value list. -/
inductive SqlStmt where
  | createTable (name : String) (cols : List String)
  | insertInto (name : String) (vals : List Int)
  | selectAll (name : String)
  deriving DecidableEq, Repr

/-- Execute one statement against a database, returning the new database
state and the result rows (field name paired with value). -/
def MiniDb.exec (d : MiniDb) (stmt : SqlStmt) :
    Except SqlErr (MiniDb × List (List (String × Int))) :=
  match stmt with
  | .createTable n cols =>
    if (d.tables.lookup n).isSome then .error (.tableExists n)
    else
      .ok (⟨d.tables ++ [(n, ⟨cols,
        "CREATE TABLE " ++ n ++ " (" ++ String.intercalate ", " cols ++ ")",
        []⟩)]⟩, [])
  | .insertInto n vals =>
    match d.tables.lookup n with
    | none => .error (.noSuchTable n)
    | some tb =>
      if vals.length ≠ tb.cols.length then .error (.arityMismatch n)
      else
        .ok (⟨d.tables.map fun kv =>
          if kv.1 = n then (n, { tb with rows := tb.rows ++ [vals] }) else kv⟩, [])
  | .selectAll n =>
    match d.tables.lookup n with
    | none => .error (.noSuchTable n)
    | some tb => .ok (d, tb.rows.map fun r => tb.cols.zip r)

/-! ## DatabaseManager (database.ts, the multi-dialect version) -/

/-- The postgres driver family selected at initialization: postgres-js
(template-tag/unsafe convention) or pg (Pool/query convention). -/
inductive DriverFamily where
  | postgresJs
  | pgPool
  deriving DecidableEq, Repr

/-- The raw client handle held by the manager: a better-sqlite3 database
opened on a file path, or a postgres client for a connection string. The
MiniDb component is the (modelled) state of the data behind the handle. -/
inductive ClientHandle where
  | sqlite (path : String) (db : MiniDb)
  | postgres (family : DriverFamily) (connString : String) (db : MiniDb)
  deriving DecidableEq, Repr

/-- Errors thrown by DatabaseManager, one constructor per throw site. -/
inductive DbError where
  | sqliteUrlRequired
  | betterSqlite3Required
  | pgCredentialsRequired
  | driverUnavailable
  | unsupportedDialect (d : String)
  | notInitialized
  | unknownClientType
  | queryNotImplemented (d : String)
  | getTablesNotImplemented (d : String)
  | getSchemaNotImplemented (d : String)
  | sqlError (e : SqlErr)
  deriving DecidableEq, Repr

/-- Render a DbError to the message string thrown by the source. The
driverUnavailable message omits the dynamic project-root / nested-error
suffix of the source text; sqlError renders the engine failure. -/
def DbError.message : DbError → String
  | .sqliteUrlRequired =>
    "Database URL is required in config.dbCredentials.url for SQLite"
  | .betterSqlite3Required =>
    "better-sqlite3 is required for SQLite databases. Install it with: npm install better-sqlite3"
  | .pgCredentialsRequired =>
    "For PostgreSQL, either provide 'url' or 'host', 'user', and 'database' in config.dbCredentials"
  | .driverUnavailable =>
    "Either 'postgres' or 'pg' is required for PostgreSQL databases. Install one with: npm install postgres OR npm install pg"
  | .unsupportedDialect d =>
    "Database dialect '" ++ d ++ "' is not supported. Supported dialects: sqlite, postgresql"
  | .notInitialized => "Database not initialized. Call initialize() first."
  | .unknownClientType => "Unknown PostgreSQL client type"
  | .queryNotImplemented d => "Query execution not implemented for dialect: " ++ d
  | .getTablesNotImplemented d => "getTables not implemented for dialect: " ++ d
  | .getSchemaNotImplemented d => "getSchema not implemented for dialect: " ++ d
  | .sqlError (.noSuchTable n) => "no such table: " ++ n
  | .sqlError (.tableExists n) => "table " ++ n ++ " already exists"
  | .sqlError (.arityMismatch n) => "table " ++ n ++ " has a different number of columns"

/-- The DatabaseManager instance state: raw client, ORM wrapper (a drizzle
wrapper over the same client, modelled as mirroring it), and the stored
configuration. -/
structure DbManager where
  client : Option ClientHandle
  db : Option ClientHandle
  config : Option DrizzleConfig
  deriving DecidableEq, Repr

/-- The environment of external capabilities: which optional driver
modules resolve from the project root, the state of the remote postgres
database a new connection would reach, and the drizzle-kit subprocess
(fullCommand, cwd) -> (stdout, stderr) or a failure message. -/
structure DriverEnv where
  betterSqlite3 : Bool
  postgresJs : Bool
  pg : Bool
  pgDatabase : MiniDb
  runKit : String → String → Except String (String × String)

/-- The `this.config?.dialect` string as JS sees it: "undefined" when no
config is stored (only ever used inside error messages). -/
def DbManager.dialectStr (mgr : DbManager) : String :=
  match mgr.config with
  | none => "undefined"
  | some c => c.dialect

/-- The dialect of the stored configuration, if any. -/
def DbManager.dialectOf (mgr : DbManager) : Option String :=
  mgr.config.map (·.dialect)

/-- DatabaseManager.initializeSQLite: require a truthy url, then construct
the client and ORM wrapper only when no client exists yet, failing when
better-sqlite3 cannot be imported. Opening a database file is modelled as
starting from an empty database (exact for ":memory:" and fresh files). -/
def DbManager.initializeSQLite (mgr : DbManager) (cfg : DrizzleConfig)
    (env : DriverEnv) : Except DbError Unit × DbManager × List DriverFamily :=
  if jsTruthy cfg.dbCredentials.url = false then
    (.error .sqliteUrlRequired, mgr, [])
  else
    match mgr.client with
    | some _ => (.ok (), mgr, [])
    | none =>
      if env.betterSqlite3 then
        (.ok (), { mgr with
          client := some (ClientHandle.sqlite (cfg.dbCredentials.url.getD "") ⟨[]⟩),
          db := some (ClientHandle.sqlite (cfg.dbCredentials.url.getD "") ⟨[]⟩) }, [])
      else (.error .betterSqlite3Required, mgr, [])

/-- DatabaseManager.initializePostgreSQL, first half: use the url verbatim
when truthy, otherwise synthesize a connection string from
host/user/database, throwing when one of them is missing. -/
def pgConnectionString (creds : DbCredentials) : Except DbError String :=
  if jsTruthy creds.url then .ok (creds.url.getD "")
  else if jsTruthy creds.host = false ∨ jsTruthy creds.user = false ∨
      jsTruthy creds.database = false then
    .error .pgCredentialsRequired
  else
    .ok ("postgresql://" ++ creds.user.getD "" ++ ":" ++ creds.password.getD "" ++
      "@" ++ creds.host.getD "" ++ ":" ++ toString (portOrDefault creds.port) ++
      "/" ++ creds.database.getD "")

/-- DatabaseManager.initializePostgreSQL, second half: with the connection
string settled, and only when no client exists, resolve postgres-js first
and fall back to pg, recording the attempted families. -/
def DbManager.initializePostgreSQL (mgr : DbManager) (cfg : DrizzleConfig)
    (env : DriverEnv) : Except DbError Unit × DbManager × List DriverFamily :=
  match pgConnectionString cfg.dbCredentials with
  | .error e => (.error e, mgr, [])
  | .ok cs =>
    match mgr.client with
    | some _ => (.ok (), mgr, [])
    | none =>
      if env.postgresJs then
        (.ok (), { mgr with
          client := some (ClientHandle.postgres .postgresJs cs env.pgDatabase),
          db := some (ClientHandle.postgres .postgresJs cs env.pgDatabase) },
          [.postgresJs])
      else if env.pg then
        (.ok (), { mgr with
          client := some (ClientHandle.postgres .pgPool cs env.pgDatabase),
          db := some (ClientHandle.postgres .pgPool cs env.pgDatabase) },
          [.postgresJs, .pgPool])
      else
        (.error .driverUnavailable, mgr, [.postgresJs, .pgPool])

/-- DatabaseManager.initialize (named initializeManager in this
development): store the configuration unconditionally, then dispatch on
the dialect. The third component records which postgres driver families
were attempted during the call. -/
def DbManager.initializeManager (mgr : DbManager) (cfg : DrizzleConfig)
    (env : DriverEnv) : Except DbError Unit × DbManager × List DriverFamily :=
  if cfg.dialect = "sqlite" then
    ({ mgr with config := some cfg } : DbManager).initializeSQLite cfg env
  else if cfg.dialect = "postgresql" then
    ({ mgr with config := some cfg } : DbManager).initializePostgreSQL cfg env
  else
    (.error (.unsupportedDialect cfg.dialect), { mgr with config := some cfg }, [])

/-- DatabaseManager.executeQuery: check initialization (getDb), then route
by the stored dialect. For sqlite the statement runs on the embedded
database; for postgresql both client conventions (unsafe / query+rows)
execute the same statement against the connected database. -/
def DbManager.executeQuery (mgr : DbManager) (stmt : SqlStmt) :
    Except DbError (List (List (String × Int))) × DbManager :=
  match mgr.db with
  | none => (.error .notInitialized, mgr)
  | some _ =>
    if mgr.dialectOf = some "sqlite" then
      match mgr.client with
      | none => (.error .notInitialized, mgr)
      | some (.sqlite path d) =>
        match d.exec stmt with
        | .error e => (.error (.sqlError e), mgr)
        | .ok (d', rows) =>
          let c := ClientHandle.sqlite path d'
          (.ok rows, { mgr with client := some c, db := some c })
      | some (.postgres ..) => (.error .unknownClientType, mgr)
    else if mgr.dialectOf = some "postgresql" then
      match mgr.client with
      | none => (.error .notInitialized, mgr)
      | some (.postgres fam cs d) =>
        match d.exec stmt with
        | .error e => (.error (.sqlError e), mgr)
        | .ok (d', rows) =>
          let c := ClientHandle.postgres fam cs d'
          (.ok rows, { mgr with client := some c, db := some c })
      | some (.sqlite ..) => (.error .unknownClientType, mgr)
    else (.error (.queryNotImplemented mgr.dialectStr), mgr)

/-- DatabaseManager.getTables: the sqlite branch enumerates the engine
catalog (sqlite_master rows aliased name); the postgresql branch selects
tablename as name from pg_tables for the public schema, under either
client convention. -/
def DbManager.getTables (mgr : DbManager) :
    Except DbError (List (List (String × String))) :=
  if mgr.dialectOf = some "sqlite" then
    match mgr.client with
    | none => .error .notInitialized
    | some (.sqlite _ d) => .ok (d.tables.map fun nt => [("name", nt.1)])
    | some (.postgres ..) => .error .unknownClientType
  else if mgr.dialectOf = some "postgresql" then
    match mgr.client with
    | none => .error .notInitialized
    | some (.postgres _ _ d) => .ok (d.tables.map fun nt => [("name", nt.1)])
    | some (.sqlite ..) => .error .unknownClientType
  else .error (.getTablesNotImplemented mgr.dialectStr)

/-- The placeholder DDL string the postgresql schema query synthesizes:
the SQL text concatenates 'CREATE TABLE ' || tablename || ' (...);'. -/
def pgPlaceholderDdl (n : String) : String :=
  "CREATE TABLE " ++ n ++ " (...);"

/-- DatabaseManager.getSchema: the sqlite branch returns name and sql (the
stored creation statement) from sqlite_master; the postgresql branch
returns tablename as name and the placeholder concatenation as sql, under
either client convention. -/
def DbManager.getSchema (mgr : DbManager) :
    Except DbError (List (List (String × String))) :=
  if mgr.dialectOf = some "sqlite" then
    match mgr.client with
    | none => .error .notInitialized
    | some (.sqlite _ d) =>
      .ok (d.tables.map fun nt => [("name", nt.1), ("sql", nt.2.createSql)])
    | some (.postgres ..) => .error .unknownClientType
  else if mgr.dialectOf = some "postgresql" then
    match mgr.client with
    | none => .error .notInitialized
    | some (.postgres _ _ d) =>
      .ok (d.tables.map fun nt => [("name", nt.1), ("sql", pgPlaceholderDdl nt.1)])
    | some (.sqlite ..) => .error .unknownClientType
  else .error (.getSchemaNotImplemented mgr.dialectStr)

/-- DatabaseManager.close: when a client exists, close it via the
dialect-appropriate method (external) and clear both references; a no-op
otherwise. -/
def DbManager.close (mgr : DbManager) : DbManager :=
  match mgr.client with
  | none => mgr
  | some _ => { mgr with client := none, db := none }

/-! ## MCP server (server.ts / dist server.js) -/

/-- The resource URI constants (RESOURCE_URIS of dist/server.js). -/
def resourceUriTables : String := "database://tables"

/-- The schema resource URI. -/
def resourceUriSchema : String := "database://schema"

/-- The five statically declared tool names. -/
def toolNames : List String :=
  ["drizzle_generate_migration", "drizzle_run_migrations",
   "drizzle_introspect_schema", "execute_query", "initialize_database"]

/-- A character admitted by the migration-name pattern [a-zA-Z0-9_-]. -/
def isValidNameChar (c : Char) : Bool :=
  c.isAlpha || c.isDigit || c = '_' || c = '-'

/-- validateMigrationName: a missing / non-string / empty name fails with
the first message, a name with a character outside the pattern fails with
the second. The argument is modelled as Option String, none standing for
an absent or non-string value. -/
def validateMigrationName (name : Option String) : Except String Unit :=
  match name with
  | none => .error "Migration name is required and must be a string"
  | some s =>
    if s = "" then .error "Migration name is required and must be a string"
    else if s.data.all isValidNameChar = false then
      .error "Migration name can only contain letters, numbers, hyphens, and underscores"
    else .ok ()

/-- The DrizzleMCPServer instance state. -/
structure MCPServer where
  configLoader : ConfigLoader
  databaseManager : DbManager
  config : Option DrizzleConfig
  deriving Repr

/-- DrizzleMCPServer.loadConfig: when no configuration is cached or an
explicit (truthy) path is given, load through the ConfigLoader and then
initialize the DatabaseManager; otherwise a no-op. Errors are rendered to
their thrown message strings; mutations preceding a throw persist, as in
the source. -/
def MCPServer.loadConfig (s : MCPServer) (fs : FileSystem) (env : DriverEnv)
    (configPath : Option String) : Except String Unit × MCPServer :=
  if s.config.isNone || jsTruthy configPath then
    let lr := s.configLoader.loadConfig fs configPath
    let s1 := { s with configLoader := lr.loader }
    match lr.result with
    | .error e => (.error e.message, s1)
    | .ok cfg =>
      let s2 := { s1 with config := some cfg }
      let (r, mgr, _) := s2.databaseManager.initializeManager cfg env
      let s3 := { s2 with databaseManager := mgr }
      match r with
      | .error e => (.error e.message, s3)
      | .ok _ => (.ok (), s3)
  else (.ok (), s)

/-- The subprocess invocation handed to execAsync: the full command line
and the working directory option. -/
structure KitCommand where
  fullCommand : String
  cwd : String
  deriving DecidableEq, Repr

/-- The --config value used by executeDrizzleKitCommand: the explicit
(truthy) config argument, or the fixed default file name returned by
getDefaultConfigPath. -/
def defaultedConfigArg (config : Option String) : String :=
  if jsTruthy config then config.getD "" else "drizzle.config.ts"

/-- DrizzleMCPServer.executeDrizzleKitCommand: ensure configuration is
loaded, build the command line from the verb and the --config argument,
and run it with cwd set to the loaded config file's directory. The third
component lists the subprocesses actually spawned by the call. -/
def MCPServer.executeDrizzleKitCommand (s : MCPServer) (fs : FileSystem)
    (env : DriverEnv) (command : String) (config : Option String) :
    Except String (String × String) × MCPServer × List KitCommand :=
  match s.loadConfig fs env config with
  | (.error e, s') => (.error e, s', [])
  | (.ok _, s') =>
    let configPath := defaultedConfigArg config
    let fullCommand := "npx drizzle-kit " ++ command ++ " --config=" ++ configPath
    match s'.configLoader.getConfigDirectory with
    | .error e => (.error e.message, s', [])
    | .ok dir =>
      match env.runKit fullCommand dir with
      | .ok outs => (.ok outs, s', [⟨fullCommand, dir⟩])
      | .error e => (.error e, s', [⟨fullCommand, dir⟩])

/-- handleGenerateMigration: validate the name, then generate. -/
def MCPServer.handleGenerateMigration (s : MCPServer) (fs : FileSystem)
    (env : DriverEnv) (name config : Option String) :
    Except String String × MCPServer × List KitCommand :=
  match validateMigrationName name with
  | .error e => (.error e, s, [])
  | .ok _ =>
    let mn := name.getD ""
    match s.executeDrizzleKitCommand fs env ("generate --name=" ++ mn) config with
    | (.ok (out, err), s', sp) =>
      (.ok ("Migration '" ++ mn ++ "' generated successfully:\n\nSTDOUT:\n" ++
        out ++ "\n\nSTDERR:\n" ++ err), s', sp)
    | (.error e, s', sp) => (.error e, s', sp)

/-- handleRunMigrations. -/
def MCPServer.handleRunMigrations (s : MCPServer) (fs : FileSystem)
    (env : DriverEnv) (config : Option String) :
    Except String String × MCPServer × List KitCommand :=
  match s.executeDrizzleKitCommand fs env "migrate" config with
  | (.ok (out, err), s', sp) =>
    (.ok ("Migrations executed successfully:\n\nSTDOUT:\n" ++ out ++
      "\n\nSTDERR:\n" ++ err), s', sp)
  | (.error e, s', sp) => (.error e, s', sp)

/-- handleIntrospectSchema. -/
def MCPServer.handleIntrospectSchema (s : MCPServer) (fs : FileSystem)
    (env : DriverEnv) (config : Option String) :
    Except String String × MCPServer × List KitCommand :=
  match s.executeDrizzleKitCommand fs env "introspect" config with
  | (.ok (out, err), s', sp) =>
    (.ok ("Schema introspected successfully:\n\nSTDOUT:\n" ++ out ++
      "\n\nSTDERR:\n" ++ err), s', sp)
  | (.error e, s', sp) => (.error e, s', sp)

/-- Render query result rows the way the handler text embeds them
(a model of JSON.stringify on the row array; indentation not reproduced). -/
def serializeIntRows (rows : List (List (String × Int))) : String :=
  "[" ++ String.intercalate ", " (rows.map fun r =>
    "\x7b" ++ String.intercalate ", " (r.map fun kv =>
      "\"" ++ kv.1 ++ "\": " ++ toString kv.2) ++ "\x7d") ++ "]"

/-- Render string-valued rows (tables / schema resources) as JSON text
(a model of JSON.stringify; indentation not reproduced). -/
def serializeStrRows (rows : List (List (String × String))) : String :=
  "[" ++ String.intercalate ", " (rows.map fun r =>
    "\x7b" ++ String.intercalate ", " (r.map fun kv =>
      "\"" ++ kv.1 ++ "\": \"" ++ kv.2 ++ "\"") ++ "\x7d") ++ "]"

/-- handleExecuteQuery: require a (string) query, lazily load config when
none is cached, then run the query. The query argument is modelled as the
parsed statement; none stands for an absent, non-string or empty query. -/
def MCPServer.handleExecuteQuery (s : MCPServer) (fs : FileSystem)
    (env : DriverEnv) (query : Option SqlStmt) :
    Except String String × MCPServer × List KitCommand :=
  match query with
  | none => (.error "Query is required and must be a string", s, [])
  | some stmt =>
    let (r, s1) := if s.config.isNone then s.loadConfig fs env none else (.ok (), s)
    match r with
    | .error e => (.error e, s1, [])
    | .ok _ =>
      let (qr, mgr) := s1.databaseManager.executeQuery stmt
      let s2 := { s1 with databaseManager := mgr }
      match qr with
      | .error e => (.error e.message, s2, [])
      | .ok rows =>
        (.ok ("Query executed successfully:\n\nResult:\n" ++ serializeIntRows rows),
          s2, [])

/-- handleInitializeDatabase: load (and thereby initialize), wrapping any
failure in the handler's own message. -/
def MCPServer.handleInitializeDatabase (s : MCPServer) (fs : FileSystem)
    (env : DriverEnv) (config : Option String) :
    Except String String × MCPServer × List KitCommand :=
  match s.loadConfig fs env config with
  | (.error e, s') => (.error ("Failed to initialize database: " ++ e), s', [])
  | (.ok _, s') =>
    (.ok ("Database initialized successfully with config: " ++
      (if jsTruthy config then config.getD "" else "auto-detected")), s', [])

/-- The arguments object of a tool call. -/
structure ToolArgs where
  name : Option String
  config : Option String
  query : Option SqlStmt

/-- The inner switch of the CallTool request handler: route by tool name,
throwing on an unknown one. -/
def MCPServer.dispatchTool (s : MCPServer) (fs : FileSystem) (env : DriverEnv)
    (toolName : String) (args : ToolArgs) :
    Except String String × MCPServer × List KitCommand :=
  if toolName = "drizzle_generate_migration" then
    s.handleGenerateMigration fs env args.name args.config
  else if toolName = "drizzle_run_migrations" then
    s.handleRunMigrations fs env args.config
  else if toolName = "drizzle_introspect_schema" then
    s.handleIntrospectSchema fs env args.config
  else if toolName = "execute_query" then
    s.handleExecuteQuery fs env args.query
  else if toolName = "initialize_database" then
    s.handleInitializeDatabase fs env args.config
  else (.error ("Unknown tool: " ++ toolName), s, [])

/-- The response envelope of a tool call: one text content block and the
isError flag. -/
structure ToolResponse where
  text : String
  isError : Bool
  deriving DecidableEq, Repr

/-- The CallTool request handler: the try/catch around the dispatch switch
turns every handler error into a structured failed-result response with a
human-readable Error text; it never rethrows. -/
def MCPServer.callToolHandler (s : MCPServer) (fs : FileSystem) (env : DriverEnv)
    (toolName : String) (args : ToolArgs) :
    ToolResponse × MCPServer × List KitCommand :=
  match s.dispatchTool fs env toolName args with
  | (.ok txt, s', sp) => (⟨txt, false⟩, s', sp)
  | (.error msg, s', sp) => (⟨"Error: " ++ msg, true⟩, s', sp)

/-- The ReadResource request handler: lazily load configuration (failures
there propagate unwrapped, the load sits before the try block), then
resolve the URI; any error inside the try block - including the unknown-URI
throw - is rethrown as a failure of the read itself with the wrapping
message, outside the tool-call error envelope. -/
def MCPServer.readResourceHandler (s : MCPServer) (fs : FileSystem)
    (env : DriverEnv) (uri : String) : Except String (String × MCPServer) :=
  let (r, s1) := if s.config.isNone then s.loadConfig fs env none else (.ok (), s)
  match r with
  | .error e => .error e
  | .ok _ =>
    let inner : Except String String :=
      if uri = resourceUriTables then
        match s1.databaseManager.getTables with
        | .error e => .error e.message
        | .ok rows => .ok (serializeStrRows rows)
      else if uri = resourceUriSchema then
        match s1.databaseManager.getSchema with
        | .error e => .error e.message
        | .ok rows => .ok (serializeStrRows rows)
      else
        .error ("Unknown resource URI: " ++ uri ++ ". Available resources: " ++
          resourceUriTables ++ ", " ++ resourceUriSchema)
    match inner with
    | .ok text => .ok (text, s1)
    | .error e => .error ("Failed to read resource '" ++ uri ++ "': " ++ e)

/-! ## Claim C1: schema constraints checked at config load -/

/-- Build the optional presence of a string field in a raw config object. -/
def optStrJson (k : String) : Option String → List (String × JsonVal)
  | none => []
  | some s => [(k, .str s)]

/-- A raw config object with a given dialect and any subset of the
url/host/user/database credential strings present. -/
def mkRawConfig (d : String) (url host user database : Option String) : JsonVal :=
  .obj [("dialect", .str d),
    ("dbCredentials", .obj (optStrJson "url" url ++ optStrJson "host" host ++
      optStrJson "user" user ++ optStrJson "database" database))]

/-- A fresh loader over /proj. -/
def c1Loader : ConfigLoader := ⟨"/proj", none, none⟩

/-- A file system whose auto-detected config declares the unrecognized
dialect mysql and no credentials at all. -/
def c1Fs : FileSystem :=
  ⟨[("/proj/drizzle.config.ts", .ok (mkRawConfig "mysql" none none none none))]⟩

/-- The configuration the loader returns for that file. -/
def c1MysqlConfig : DrizzleConfig :=
  ⟨none, none, "mysql", ⟨none, none, none, none, none, none⟩⟩

/-- C1 counterexample: loadConfig returns, as a validated Configuration, a
config whose dialect is outside the closed set (and the same parser also
accepts a sqlite config with no url), so the load does NOT fail with
ConfigInvalid on the section-3 constraint violations the claim lists. -/
theorem c1_counterexample :
    (c1Loader.loadConfig c1Fs none).result = .ok c1MysqlConfig ∧
    c1MysqlConfig.dialect = "mysql" ∧
    c1MysqlConfig.dialect ≠ "sqlite" ∧ c1MysqlConfig.dialect ≠ "postgresql" ∧
    DrizzleConfigSchema_parse (mkRawConfig "sqlite" none none none none) =
      .ok ⟨none, none, "sqlite", ⟨none, none, none, none, none, none⟩⟩ :=
  ⟨rfl, rfl, by decide, by decide, rfl⟩

/-- C1 (amended): loadConfig validation enforces only the field-type
constraints of the Zod schema. Any object with a string dialect - whatever
its value - and any subset of string credentials parses successfully and is
returned as a validated Configuration; a missing or non-string dialect is a
ConfigInvalid failure with field-level detail. The dialect closed set and
the credential-presence invariants of section 3 are not checked at config
load (they surface later, in DatabaseManager.initialize). -/
theorem c1_schema_validation :
    (∀ (d : String) (url host user database : Option String),
      DrizzleConfigSchema_parse (mkRawConfig d url host user database) =
        .ok ⟨none, none, d, ⟨url, host, none, user, none, database⟩⟩) ∧
    DrizzleConfigSchema_parse (.obj [("dbCredentials", .obj [])]) =
      .error [("dialect", "Required")] ∧
    DrizzleConfigSchema_parse (.obj [("dialect", .num 1), ("dbCredentials", .obj [])]) =
      .error [("dialect", "Expected string")] := by
  refine ⟨?_, rfl, rfl⟩
  intro d url host user database
  rcases url with _ | u <;> rcases host with _ | h <;>
    rcases user with _ | us <;> rcases database with _ | da <;> rfl

/-! ## Claim C2: loadConfig caching -/

/-- The cached configuration of the C2 scenario. -/
def c2CachedConfig : DrizzleConfig :=
  ⟨none, none, "sqlite", ⟨some ":memory:", none, none, none, none, none⟩⟩

/-- A loader that has already loaded /proj/drizzle.config.ts. -/
def c2Loader : ConfigLoader :=
  ⟨"/proj", some c2CachedConfig, some "/proj/drizzle.config.ts"⟩

/-- The file system backing the C2 scenario. -/
def c2Fs : FileSystem :=
  ⟨[("/proj/drizzle.config.ts",
    .ok (mkRawConfig "sqlite" (some ":memory:") none none none))]⟩

/-- C2 counterexample: an explicit RELATIVE path whose resolution equals
the cached resolved absolute path does not hit the cache - the source
compares the unresolved argument string against the cached resolved path -
so the call re-reads and re-evaluates the config file (one file read, not
zero). -/
theorem c2_counterexample :
    resolvePath c2Loader.cwd "drizzle.config.ts" = "/proj/drizzle.config.ts" ∧
    c2Loader.configPath = some "/proj/drizzle.config.ts" ∧
    (c2Loader.loadConfig c2Fs (some "drizzle.config.ts")).fileReads = 1 ∧
    (c2Loader.loadConfig c2Fs (some "drizzle.config.ts")).fileReads ≠ 0 :=
  ⟨rfl, rfl, rfl, by decide⟩

/-- C2 (amended): once a configuration is cached, a call with no explicit
path, or with an explicit path STRING-EQUAL to the cached resolved
absolute path, returns the cached Configuration with zero file reads and
an unchanged loader; a call with any other truthy explicit path - even one
whose resolution equals the cached path - takes the uncached path again,
repeating resolution, loading and validation. -/
theorem c2_cache_semantics (cl : ConfigLoader) (fs : FileSystem)
    (cfg : DrizzleConfig) (hcfg : cl.config = some cfg) :
    cl.loadConfig fs none = ⟨.ok cfg, cl, 0⟩ ∧
    (∀ p, cl.configPath = some p → cl.loadConfig fs (some p) = ⟨.ok cfg, cl, 0⟩) ∧
    (∀ q, jsTruthy (some q) = true → (some q : Option String) ≠ cl.configPath →
      cl.loadConfig fs (some q) = cl.loadConfigFresh fs (some q)) := by
  unfold ConfigLoader.loadConfig
  rw [hcfg]
  refine ⟨by simp [jsTruthy], ?_, ?_⟩
  · intro p hp
    simp [hp]
  · intro q hq hne
    simp [hq, hne]

/-- C2 witness: the cache-hit and cache-miss cases at the concrete
scenario loader. -/
theorem c2_cache_semantics_witness :
    c2Loader.config = some c2CachedConfig ∧
    c2Loader.loadConfig c2Fs none = ⟨.ok c2CachedConfig, c2Loader, 0⟩ ∧
    c2Loader.loadConfig c2Fs (some "/proj/drizzle.config.ts") =
      ⟨.ok c2CachedConfig, c2Loader, 0⟩ ∧
    c2Loader.loadConfig c2Fs (some "/other/drizzle.config.ts") =
      c2Loader.loadConfigFresh c2Fs (some "/other/drizzle.config.ts") :=
  ⟨rfl, (c2_cache_semantics c2Loader c2Fs c2CachedConfig rfl).1,
    (c2_cache_semantics c2Loader c2Fs c2CachedConfig rfl).2.1 _ rfl,
    (c2_cache_semantics c2Loader c2Fs c2CachedConfig rfl).2.2
      "/other/drizzle.config.ts" (by decide) (by decide)⟩

/-! ## Claim C10: failed loads leave the loader cache unchanged -/

/-- The uncached load path leaves the loader untouched whenever it fails. -/
theorem loadConfigFresh_error_loader (cl : ConfigLoader) (fs : FileSystem)
    (cp : Option String) (e : ConfigError)
    (h : (cl.loadConfigFresh fs cp).result = .error e) :
    (cl.loadConfigFresh fs cp).loader = cl := by
  unfold ConfigLoader.loadConfigFresh at h ⊢
  cases hr : cl.resolveConfigPath fs cp with
  | error e' => simp [hr]
  | ok rp =>
    cases hl : fs.files.lookup rp with
    | none => simp [hr, hl]
    | some v =>
      cases v with
      | error msg => simp [hr, hl]
      | ok raw =>
        cases hp : DrizzleConfigSchema_parse raw with
        | error issues => simp [hr, hl, hp]
        | ok cfg => simp [hr, hl, hp] at h

/-- C10: a failed loadConfig call (resolution failure, missing file,
module-load failure, or schema validation failure) returns the loader in
its previous state: the cached configuration and cached config path are
unchanged, so later calls with no explicit path still return the previous
Configuration and getConfigDirectory still answers from the previous
config path. -/
theorem c10_load_failure_atomic (cl : ConfigLoader) (fs : FileSystem)
    (cp : Option String) (e : ConfigError)
    (h : (cl.loadConfig fs cp).result = .error e) :
    (cl.loadConfig fs cp).loader = cl := by
  unfold ConfigLoader.loadConfig at h ⊢
  cases hc : cl.config with
  | none =>
    rw [hc] at h
    exact loadConfigFresh_error_loader cl fs cp e h
  | some cfg =>
    rw [hc] at h
    by_cases hcond : jsTruthy cp = false ∨ cp = cl.configPath
    · simp [hcond] at h
    · simp only [if_neg hcond] at h ⊢
      exact loadConfigFresh_error_loader cl fs cp e h

/-- The loaded configuration cached by the C10 scenario loader. -/
def c10Config : DrizzleConfig :=
  ⟨none, none, "sqlite", ⟨some "./db.sqlite", none, none, none, none, none⟩⟩

/-- A loader that has loaded /proj/drizzle.config.ts, about to be asked
for a path that does not exist. -/
def c10Loader : ConfigLoader :=
  ⟨"/proj", some c10Config, some "/proj/drizzle.config.ts"⟩

/-- An empty file system, so the explicit path below cannot be loaded. -/
def c10Fs : FileSystem := ⟨[]⟩

/-- C10 witness: a load of a missing explicit path fails with the
not-found error and leaves the loader - cache and config path - unchanged. -/
theorem c10_load_failure_atomic_witness :
    (c10Loader.loadConfig c10Fs (some "missing.ts")).result =
      .error (.notFound "/proj/missing.ts") ∧
    (c10Loader.loadConfig c10Fs (some "missing.ts")).loader = c10Loader :=
  ⟨rfl, c10_load_failure_atomic c10Loader c10Fs (some "missing.ts") _ rfl⟩

/-! ## Claim C6: missing postgres credentials fail before driver resolution -/

/-- The connection-string computation fails with the missing-credential
error when no url is given and one of host/user/database is falsy. -/
theorem pgConnectionString_missing (creds : DbCredentials)
    (hu : jsTruthy creds.url = false)
    (hmiss : jsTruthy creds.host = false ∨ jsTruthy creds.user = false ∨
      jsTruthy creds.database = false) :
    pgConnectionString creds = .error .pgCredentialsRequired := by
  unfold pgConnectionString
  rw [hu]
  rw [if_neg (by simp)]
  rw [if_pos hmiss]

/-- C6: for every postgresql configuration whose credentials lack a truthy
url and lack at least one of host/user/database, initialize fails with the
missing-credential error, the manager keeps its previous client and ORM
wrapper (only the stored config changes), and no driver family is ever
attempted - hence no client or connection object is constructed. -/
theorem c6_missing_credentials (mgr : DbManager) (cfg : DrizzleConfig)
    (env : DriverEnv)
    (hd : cfg.dialect = "postgresql")
    (hu : jsTruthy cfg.dbCredentials.url = false)
    (hmiss : jsTruthy cfg.dbCredentials.host = false ∨
      jsTruthy cfg.dbCredentials.user = false ∨
      jsTruthy cfg.dbCredentials.database = false) :
    mgr.initializeManager cfg env =
      (.error .pgCredentialsRequired, { mgr with config := some cfg }, []) := by
  unfold DbManager.initializeManager DbManager.initializePostgreSQL
  rw [hd]
  rw [if_neg (by decide : ¬ ("postgresql" = "sqlite"))]
  rw [if_pos (rfl : "postgresql" = "postgresql")]
  rw [pgConnectionString_missing cfg.dbCredentials hu hmiss]

/-- The configuration of the C6 witness: postgresql, no url, no user. -/
def c6Config : DrizzleConfig :=
  ⟨none, none, "postgresql", ⟨none, some "localhost", none, none, none, some "appdb"⟩⟩

/-- A fresh manager. -/
def c6Mgr : DbManager := ⟨none, none, none⟩

/-- An environment with every driver available and an empty remote
database; initialization must fail before consulting any of it. -/
def c6Env : DriverEnv := ⟨true, true, true, ⟨[]⟩, fun _ _ => .ok ("", "")⟩

/-- C6 witness: the concrete run fails with the missing-credential error,
changes only the stored config, and attempts no driver family. -/
theorem c6_missing_credentials_witness :
    c6Config.dialect = "postgresql" ∧
    jsTruthy c6Config.dbCredentials.url = false ∧
    jsTruthy c6Config.dbCredentials.user = false ∧
    c6Mgr.initializeManager c6Config c6Env =
      (.error .pgCredentialsRequired, { c6Mgr with config := some c6Config }, []) :=
  ⟨rfl, rfl, rfl,
    c6_missing_credentials c6Mgr c6Config c6Env rfl rfl (Or.inr (Or.inl rfl))⟩

/-! ## Claim C9: repeated initialization -/

/-- C9: every initialize call overwrites the stored configuration (last
initializer wins); and whenever a client handle already exists, initialize
leaves both the client and the ORM wrapper untouched (first initializer
wins for the handle), on every dialect path, so at most one underlying
connection ever exists. -/
theorem c9_initialize_idempotent (mgr : DbManager) (cfg : DrizzleConfig)
    (env : DriverEnv) :
    (mgr.initializeManager cfg env).2.1.config = some cfg ∧
    ∀ c, mgr.client = some c →
      (mgr.initializeManager cfg env).2.1.client = some c ∧
      (mgr.initializeManager cfg env).2.1.db = mgr.db := by
  unfold DbManager.initializeManager DbManager.initializeSQLite
    DbManager.initializePostgreSQL
  constructor
  · repeat' split
    all_goals rfl
  · intro c hc
    constructor
    · repeat' split
      all_goals simp_all
    · repeat' split
      all_goals simp_all

/-- The previously stored configuration of the C9 witness. -/
def c9OldConfig : DrizzleConfig :=
  ⟨none, none, "sqlite", ⟨some "a.db", none, none, none, none, none⟩⟩

/-- The configuration of the second initialize call. -/
def c9NewConfig : DrizzleConfig :=
  ⟨none, none, "sqlite", ⟨some "b.db", none, none, none, none, none⟩⟩

/-- The live client handle of the C9 witness. -/
def c9Client : ClientHandle := .sqlite "a.db" ⟨[]⟩

/-- A manager already initialized once. -/
def c9Mgr : DbManager := ⟨some c9Client, some c9Client, some c9OldConfig⟩

/-- The driver environment of the C9 witness. -/
def c9Env : DriverEnv := ⟨true, true, true, ⟨[]⟩, fun _ _ => .ok ("", "")⟩

/-- C9 witness: a second initialize on a live manager replaces the stored
configuration but keeps the client and the ORM wrapper. -/
theorem c9_initialize_idempotent_witness :
    (c9Mgr.initializeManager c9NewConfig c9Env).2.1.config = some c9NewConfig ∧
    (c9Mgr.initializeManager c9NewConfig c9Env).2.1.client = some c9Client ∧
    (c9Mgr.initializeManager c9NewConfig c9Env).2.1.db = c9Mgr.db :=
  ⟨(c9_initialize_idempotent c9Mgr c9NewConfig c9Env).1,
    ((c9_initialize_idempotent c9Mgr c9NewConfig c9Env).2 c9Client rfl).1,
    ((c9_initialize_idempotent c9Mgr c9NewConfig c9Env).2 c9Client rfl).2⟩

/-! ## Claim C3: INSERT / SELECT round trip through executeQuery -/

/-- Looking a key up after replacing its entry in place finds the
replacement. -/
theorem lookup_map_replace (l : List (String × Table)) (n : String)
    (tb tb' : Table) (h : l.lookup n = some tb) :
    (l.map fun kv => if kv.1 = n then (n, tb') else kv).lookup n = some tb' := by
  induction l with
  | nil => simp [List.lookup] at h
  | cons kv tl ih =>
    obtain ⟨k, v⟩ := kv
    simp only [List.map_cons]
    dsimp only
    by_cases hk : k = n
    · rw [if_pos hk]
      subst hk
      simp [List.lookup]
    · rw [if_neg hk]
      have hne : (n == k) = false := beq_eq_false_iff_ne.mpr fun e => hk e.symm
      simp only [List.lookup, hne] at h ⊢
      exact ih h

/-- Inserting into an existing table with matching arity succeeds with no
result rows and replaces the table entry in place. -/
theorem exec_insert (d : MiniDb) (t : String) (tb : Table) (vals : List Int)
    (ht : d.tables.lookup t = some tb) (hlen : vals.length = tb.cols.length) :
    d.exec (.insertInto t vals) =
      .ok (⟨d.tables.map fun kv =>
        if kv.1 = t then (t, { tb with rows := tb.rows ++ [vals] }) else kv⟩, []) := by
  simp [MiniDb.exec, ht, hlen]

/-- Selecting from an existing table returns its rows zipped with its
column names and leaves the database unchanged. -/
theorem exec_select (d : MiniDb) (t : String) (tb : Table)
    (ht : d.tables.lookup t = some tb) :
    d.exec (.selectAll t) = .ok (d, tb.rows.map fun r => tb.cols.zip r) := by
  simp [MiniDb.exec, ht]

/-- C3: on an initialized sqlite manager, inserting a row into an existing
table through executeQuery succeeds (empty result, no error), and a
subsequent SELECT through executeQuery returns a row list containing the
inserted row with identical field values (the table's columns zipped with
the inserted values). -/
theorem c3_insert_select_roundtrip (mgr : DbManager) (cfg : DrizzleConfig)
    (path : String) (d : MiniDb) (t : String) (tb : Table) (vals : List Int)
    (hc : mgr.config = some cfg) (hd : cfg.dialect = "sqlite")
    (hcl : mgr.client = some (.sqlite path d)) (hdb : mgr.db.isSome = true)
    (ht : d.tables.lookup t = some tb) (hlen : vals.length = tb.cols.length) :
    ∃ mgr₁, mgr.executeQuery (.insertInto t vals) = (.ok [], mgr₁) ∧
      ∃ rows mgr₂, mgr₁.executeQuery (.selectAll t) = (.ok rows, mgr₂) ∧
        tb.cols.zip vals ∈ rows := by
  rcases Option.isSome_iff_exists.mp hdb with ⟨dbv, hdbv⟩
  have hdial : mgr.dialectOf = some "sqlite" := by
    simp [DbManager.dialectOf, hc, hd]
  have hins := exec_insert d t tb vals ht hlen
  have hlk : (MiniDb.mk (d.tables.map fun kv =>
      if kv.1 = t then (t, { tb with rows := tb.rows ++ [vals] }) else kv)).tables.lookup t
      = some { tb with rows := tb.rows ++ [vals] } :=
    lookup_map_replace d.tables t tb _ ht
  have hsel := exec_select _ t _ hlk
  have h1 : mgr.executeQuery (.insertInto t vals) =
      (.ok [], { mgr with
        client := some (.sqlite path ⟨d.tables.map fun kv =>
          if kv.1 = t then (t, { tb with rows := tb.rows ++ [vals] }) else kv⟩),
        db := some (.sqlite path ⟨d.tables.map fun kv =>
          if kv.1 = t then (t, { tb with rows := tb.rows ++ [vals] }) else kv⟩) }) := by
    simp [DbManager.executeQuery, hdbv, hcl, hdial, hins]
  have h2 : ({ mgr with
        client := some (.sqlite path ⟨d.tables.map fun kv =>
          if kv.1 = t then (t, { tb with rows := tb.rows ++ [vals] }) else kv⟩),
        db := some (.sqlite path ⟨d.tables.map fun kv =>
          if kv.1 = t then (t, { tb with rows := tb.rows ++ [vals] }) else kv⟩) }
      : DbManager).executeQuery (.selectAll t) =
      (.ok ((tb.rows ++ [vals]).map fun r => tb.cols.zip r),
        { mgr with
          client := some (.sqlite path ⟨d.tables.map fun kv =>
            if kv.1 = t then (t, { tb with rows := tb.rows ++ [vals] }) else kv⟩),
          db := some (.sqlite path ⟨d.tables.map fun kv =>
            if kv.1 = t then (t, { tb with rows := tb.rows ++ [vals] }) else kv⟩) }) := by
    have hdial' : ({ mgr with
        client := some (.sqlite path ⟨d.tables.map fun kv =>
          if kv.1 = t then (t, { tb with rows := tb.rows ++ [vals] }) else kv⟩),
        db := some (.sqlite path ⟨d.tables.map fun kv =>
          if kv.1 = t then (t, { tb with rows := tb.rows ++ [vals] }) else kv⟩) }
        : DbManager).dialectOf = some "sqlite" := by
      simp [DbManager.dialectOf, hc, hd]
    simp [DbManager.executeQuery, hdial', hsel]
  exact ⟨_, h1, _, _, h2,
    List.mem_map.mpr ⟨vals, List.mem_append.mpr (Or.inr (by simp)), rfl⟩⟩

/-- The pre-existing table of the C3 witness scenario. -/
def c3Table : Table := ⟨["id"], "CREATE TABLE t (id INTEGER)", []⟩

/-- The embedded database holding it. -/
def c3Db : MiniDb := ⟨[("t", c3Table)]⟩

/-- The sqlite in-memory configuration of the scenario. -/
def c3Config : DrizzleConfig :=
  ⟨none, none, "sqlite", ⟨some ":memory:", none, none, none, none, none⟩⟩

/-- The initialized manager of the scenario. -/
def c3Mgr : DbManager :=
  ⟨some (.sqlite ":memory:" c3Db), some (.sqlite ":memory:" c3Db), some c3Config⟩

/-- C3 witness: the spec's example scenario - INSERT 1 into t, then SELECT
from t returns a row list containing the row with id = 1. -/
theorem c3_roundtrip_witness :
    c3Mgr.config = some c3Config ∧ c3Config.dialect = "sqlite" ∧
    c3Db.tables.lookup "t" = some c3Table ∧
    ([1] : List Int).length = c3Table.cols.length ∧
    ∃ mgr₁, c3Mgr.executeQuery (.insertInto "t" [1]) = (.ok [], mgr₁) ∧
      ∃ rows mgr₂, mgr₁.executeQuery (.selectAll "t") = (.ok rows, mgr₂) ∧
        c3Table.cols.zip [1] ∈ rows :=
  ⟨rfl, rfl, rfl, rfl,
    c3_insert_select_roundtrip c3Mgr c3Config ":memory:" c3Db "t" c3Table [1]
      rfl rfl rfl rfl rfl rfl⟩

/-! ## Claim C4: the shape of schema resource entries -/

/-- The remote postgres database of the C4 scenario: one table t. -/
def c4RemoteDb : MiniDb := ⟨[("t", ⟨["id"], "CREATE TABLE t (id INTEGER)", []⟩)]⟩

/-- Its postgresql configuration. -/
def c4Config : DrizzleConfig :=
  ⟨none, none, "postgresql",
    ⟨some "postgresql://u:p@h:5432/db", none, none, none, none, none⟩⟩

/-- The initialized postgres manager of the scenario. -/
def c4Mgr : DbManager :=
  ⟨some (.postgres .postgresJs "postgresql://u:p@h:5432/db" c4RemoteDb),
    some (.postgres .postgresJs "postgresql://u:p@h:5432/db" c4RemoteDb),
    some c4Config⟩

/-- C4 counterexample: the schema entry for table t carries the field keys
name and sql - not name and ddl as the claim states - and the placeholder
string ends in a semicolon, so it differs from the claimed placeholder
text as well. -/
theorem c4_counterexample :
    c4Mgr.getSchema = .ok [[("name", "t"), ("sql", "CREATE TABLE t (...);")]] ∧
    ([("name", "t"), ("sql", "CREATE TABLE t (...);")].map Prod.fst ≠
      ["name", "ddl"]) ∧
    pgPlaceholderDdl "t" ≠ "CREATE TABLE t (...)" :=
  ⟨rfl, by decide, by decide⟩

/-- C4 (amended): on an initialized manager the schema dump is a list of
entries whose field keys are exactly name and sql; for the postgresql
dialect every sql value is the placeholder concatenation CREATE TABLE,
the table name, and the literal " (...);" - not a reconstructed DDL
statement - while for sqlite it is the creation statement stored by the
engine catalog. -/
theorem c4_schema_rows (mgr : DbManager) :
    (∀ fam cs rdb, mgr.dialectOf = some "postgresql" →
      mgr.client = some (.postgres fam cs rdb) →
      mgr.getSchema = .ok (rdb.tables.map fun nt =>
        [("name", nt.1), ("sql", pgPlaceholderDdl nt.1)]) ∧
      ∀ r ∈ rdb.tables.map (fun nt => [("name", nt.1), ("sql", pgPlaceholderDdl nt.1)]),
        r.map Prod.fst = ["name", "sql"]) ∧
    (∀ p d, mgr.dialectOf = some "sqlite" →
      mgr.client = some (.sqlite p d) →
      mgr.getSchema = .ok (d.tables.map fun nt =>
        [("name", nt.1), ("sql", nt.2.createSql)]) ∧
      ∀ r ∈ d.tables.map (fun nt => [("name", nt.1), ("sql", nt.2.createSql)]),
        r.map Prod.fst = ["name", "sql"]) := by
  constructor
  · intro fam cs rdb hdial hcl
    constructor
    · simp [DbManager.getSchema, hdial, hcl]
    · intro r hr
      simp only [List.mem_map] at hr
      obtain ⟨nt, _, rfl⟩ := hr
      rfl
  · intro p d hdial hcl
    constructor
    · simp [DbManager.getSchema, hdial, hcl]
    · intro r hr
      simp only [List.mem_map] at hr
      obtain ⟨nt, _, rfl⟩ := hr
      rfl

/-- The sqlite-side manager of the C4 witness. -/
def c4SqliteDb : MiniDb := ⟨[("u", ⟨["x"], "CREATE TABLE u (x INTEGER)", []⟩)]⟩

/-- Its sqlite configuration. -/
def c4SqliteConfig : DrizzleConfig :=
  ⟨none, none, "sqlite", ⟨some "f.db", none, none, none, none, none⟩⟩

/-- The initialized sqlite manager of the C4 witness. -/
def c4SqliteMgr : DbManager :=
  ⟨some (.sqlite "f.db" c4SqliteDb), some (.sqlite "f.db" c4SqliteDb),
    some c4SqliteConfig⟩

/-- C4 witness: both dialect branches of the amended statement at concrete
managers. -/
theorem c4_schema_rows_witness :
    (c4Mgr.getSchema = .ok (c4RemoteDb.tables.map fun nt =>
      [("name", nt.1), ("sql", pgPlaceholderDdl nt.1)]) ∧
      ∀ r ∈ c4RemoteDb.tables.map
        (fun nt => [("name", nt.1), ("sql", pgPlaceholderDdl nt.1)]),
        r.map Prod.fst = ["name", "sql"]) ∧
    (c4SqliteMgr.getSchema = .ok (c4SqliteDb.tables.map fun nt =>
      [("name", nt.1), ("sql", nt.2.createSql)]) ∧
      ∀ r ∈ c4SqliteDb.tables.map
        (fun nt => [("name", nt.1), ("sql", nt.2.createSql)]),
        r.map Prod.fst = ["name", "sql"]) :=
  ⟨(c4_schema_rows c4Mgr).1 .postgresJs "postgresql://u:p@h:5432/db"
      c4RemoteDb rfl rfl,
    (c4_schema_rows c4SqliteMgr).2 "f.db" c4SqliteDb rfl rfl⟩

/-! ## Claim C5: the drizzle-kit subprocess invocation -/

/-- The loader of the C5 scenario. -/
def c5Loader : ConfigLoader := ⟨"/proj", none, none⟩

/-- The manager of the C5 scenario. -/
def c5Mgr : DbManager := ⟨none, none, none⟩

/-- A fresh server over /proj. -/
def c5Server : MCPServer := ⟨c5Loader, c5Mgr, none⟩

/-- A project whose only config file is drizzle.config.js - so
auto-detection finds the .js file, not the .ts default. -/
def c5Fs : FileSystem :=
  ⟨[("/proj/drizzle.config.js",
    .ok (mkRawConfig "sqlite" (some ":memory:") none none none))]⟩

/-- All drivers available; the subprocess succeeds with empty output. -/
def c5Env : DriverEnv := ⟨true, true, true, ⟨[]⟩, fun _ _ => .ok ("", "")⟩

/-- C5 counterexample: with the configuration auto-detected at
/proj/drizzle.config.js, the spawned command's --config argument is the
fixed default drizzle.config.ts - not the path at which the configuration
was actually found - even though the working directory is the resolved
config file's directory. -/
theorem c5_counterexample :
    (c5Server.executeDrizzleKitCommand c5Fs c5Env "generate --name=m" none).2.2 =
      [⟨"npx drizzle-kit generate --name=m --config=drizzle.config.ts", "/proj"⟩] ∧
    (c5Server.executeDrizzleKitCommand c5Fs c5Env "generate --name=m"
      none).2.1.configLoader.configPath = some "/proj/drizzle.config.js" ∧
    "npx drizzle-kit generate --name=m --config=drizzle.config.ts" ≠
      "npx drizzle-kit generate --name=m --config=/proj/drizzle.config.js" :=
  ⟨rfl, rfl, by decide⟩

/-- C5 (amended): whenever a migration command completes, exactly one
subprocess was spawned; its --config argument is the explicit config
argument when one was given and otherwise the fixed default file name
drizzle.config.ts - regardless of which config file was resolved - and its
working directory is the directory containing the resolved config file. -/
theorem c5_kit_invocation (s : MCPServer) (fs : FileSystem) (env : DriverEnv)
    (command : String) (config : Option String)
    (h : exOk (s.executeDrizzleKitCommand fs env command config).1 = true) :
    ∃ rp, (s.executeDrizzleKitCommand fs env command
      config).2.1.configLoader.configPath = some rp ∧
      (s.executeDrizzleKitCommand fs env command config).2.2 =
        [⟨"npx drizzle-kit " ++ command ++ " --config=" ++ defaultedConfigArg config,
          dirname rp⟩] := by
  unfold MCPServer.executeDrizzleKitCommand at h ⊢
  rcases hl : s.loadConfig fs env config with ⟨r, s'⟩
  rw [hl] at h
  cases r with
  | error e => simp [exOk] at h
  | ok u =>
    cases hcp : s'.configLoader.configPath with
    | none => simp [ConfigLoader.getConfigDirectory, hcp, exOk] at h
    | some rp =>
      have hgd : s'.configLoader.getConfigDirectory = .ok (dirname rp) := by
        simp [ConfigLoader.getConfigDirectory, hcp]
      cases hrk : env.runKit ("npx drizzle-kit " ++ command ++ " --config=" ++
          defaultedConfigArg config) (dirname rp) with
      | ok outs => refine ⟨rp, ?_, ?_⟩ <;> simp [hgd, hrk, hcp]
      | error e => refine ⟨rp, ?_, ?_⟩ <;> simp [hgd, hrk, hcp]

/-- C5 witness: the amended statement at the concrete auto-detected run. -/
theorem c5_kit_invocation_witness :
    exOk (c5Server.executeDrizzleKitCommand c5Fs c5Env "generate --name=m"
      none).1 = true ∧
    ∃ rp, (c5Server.executeDrizzleKitCommand c5Fs c5Env "generate --name=m"
      none).2.1.configLoader.configPath = some rp ∧
      (c5Server.executeDrizzleKitCommand c5Fs c5Env "generate --name=m" none).2.2 =
        [⟨"npx drizzle-kit " ++ "generate --name=m" ++ " --config=" ++
          defaultedConfigArg none, dirname rp⟩] :=
  ⟨rfl, c5_kit_invocation c5Server c5Fs c5Env "generate --name=m" none rfl⟩

/-! ## Claim C7: migration-name validation precedes subprocess spawning -/

/-- C7: for every generate-migration invocation whose name is absent or
not a string, empty, or contains a character outside the allowed pattern,
the handler fails with a validation error and the spawned-subprocess list
is empty: validation strictly precedes subprocess execution. -/
theorem c7_name_validation (s : MCPServer) (fs : FileSystem) (env : DriverEnv)
    (name config : Option String)
    (hbad : name = none ∨ ∃ str, name = some str ∧
      (str = "" ∨ str.data.all isValidNameChar = false)) :
    (∃ e, (s.handleGenerateMigration fs env name config).1 = .error e) ∧
    (s.handleGenerateMigration fs env name config).2.2 = [] := by
  have hval : ∃ e, validateMigrationName name = .error e := by
    rcases hbad with h | ⟨str, hstr, hcase⟩
    · subst h
      exact ⟨_, rfl⟩
    · subst hstr
      by_cases he : str = ""
      · refine ⟨"Migration name is required and must be a string", ?_⟩
        simp only [validateMigrationName]
        rw [if_pos he]
      · rcases hcase with he' | hall
        · exact absurd he' he
        · refine ⟨"Migration name can only contain letters, numbers, hyphens, and underscores", ?_⟩
          simp only [validateMigrationName]
          rw [if_neg he, if_pos hall]
  rcases hval with ⟨e, he⟩
  unfold MCPServer.handleGenerateMigration
  rw [he]
  exact ⟨⟨e, rfl⟩, rfl⟩

/-- The server of the C7 witness. -/
def c7Server : MCPServer := ⟨⟨"/proj", none, none⟩, ⟨none, none, none⟩, none⟩

/-- Its (empty) file system. -/
def c7Fs : FileSystem := ⟨[]⟩

/-- Its driver environment. -/
def c7Env : DriverEnv := ⟨true, true, true, ⟨[]⟩, fun _ _ => .ok ("", "")⟩

/-- C7 witness: the name "bad name!" (space and bang are outside the
pattern) is rejected and no subprocess is spawned. -/
theorem c7_name_validation_witness :
    ((some "bad name!" : Option String) = none ∨ ∃ str,
      (some "bad name!" : Option String) = some str ∧
      (str = "" ∨ str.data.all isValidNameChar = false)) ∧
    (∃ e, (c7Server.handleGenerateMigration c7Fs c7Env (some "bad name!")
      none).1 = .error e) ∧
    (c7Server.handleGenerateMigration c7Fs c7Env (some "bad name!") none).2.2 = [] :=
  ⟨Or.inr ⟨"bad name!", rfl, Or.inr (by decide)⟩,
    (c7_name_validation c7Server c7Fs c7Env (some "bad name!") none
      (Or.inr ⟨"bad name!", rfl, Or.inr (by decide)⟩)).1,
    (c7_name_validation c7Server c7Fs c7Env (some "bad name!") none
      (Or.inr ⟨"bad name!", rfl, Or.inr (by decide)⟩)).2⟩

/-! ## Claim C8: error envelopes of tool calls and resource reads -/

/-- C8: the tool-call dispatch boundary converts every handler error -
including the unknown-tool throw - into a response whose text is the
human-readable Error message and whose isError flag is set, and passes
successes through with the flag clear: it never rethrows. A resource read,
by contrast, turns any error inside its try block - including an unknown
resource URI - into a failure of the read itself, wrapped in the
descriptive Failed-to-read message outside the tool-call envelope. -/
theorem c8_error_envelope (s : MCPServer) (fs : FileSystem) (env : DriverEnv)
    (toolName : String) (args : ToolArgs) (uri : String) :
    (∀ msg s' sp, s.dispatchTool fs env toolName args = (.error msg, s', sp) →
      s.callToolHandler fs env toolName args = (⟨"Error: " ++ msg, true⟩, s', sp)) ∧
    (∀ txt s' sp, s.dispatchTool fs env toolName args = (.ok txt, s', sp) →
      s.callToolHandler fs env toolName args = (⟨txt, false⟩, s', sp)) ∧
    (toolName ∉ toolNames →
      (s.dispatchTool fs env toolName args).1 =
        .error ("Unknown tool: " ++ toolName)) ∧
    (uri ∉ [resourceUriTables, resourceUriSchema] → s.config.isSome = true →
      s.readResourceHandler fs env uri =
        .error ("Failed to read resource '" ++ uri ++ "': " ++
          ("Unknown resource URI: " ++ uri ++ ". Available resources: " ++
            resourceUriTables ++ ", " ++ resourceUriSchema))) := by
  refine ⟨?_, ?_, ?_, ?_⟩
  · intro msg s' sp h
    unfold MCPServer.callToolHandler
    rw [h]
  · intro txt s' sp h
    unfold MCPServer.callToolHandler
    rw [h]
  · intro hn
    simp only [toolNames, List.mem_cons, List.not_mem_nil, or_false,
      not_or] at hn
    obtain ⟨h1, h2, h3, h4, h5⟩ := hn
    simp [MCPServer.dispatchTool, h1, h2, h3, h4, h5]
  · intro hu hc
    simp only [List.mem_cons, List.not_mem_nil, or_false, not_or] at hu
    obtain ⟨hu1, hu2⟩ := hu
    rcases Option.isSome_iff_exists.mp hc with ⟨cfg, hcfg⟩
    simp [MCPServer.readResourceHandler, hcfg, hu1, hu2]

/-- The configuration held by the C8 witness server. -/
def c8Config : DrizzleConfig :=
  ⟨none, none, "sqlite", ⟨some ":memory:", none, none, none, none, none⟩⟩

/-- A server whose configuration is already loaded. -/
def c8Server : MCPServer :=
  ⟨⟨"/proj", some c8Config, some "/proj/drizzle.config.ts"⟩,
    ⟨none, none, some c8Config⟩, some c8Config⟩

/-- Its (empty) file system. -/
def c8Fs : FileSystem := ⟨[]⟩

/-- Its driver environment. -/
def c8Env : DriverEnv := ⟨true, true, true, ⟨[]⟩, fun _ _ => .ok ("", "")⟩

/-- The argument object of the C8 witness call. -/
def c8Args : ToolArgs := ⟨none, none, none⟩

/-- C8 witness: an unknown tool name produces the enveloped Error response
with the isError flag set, and an unknown resource URI fails the read with
the descriptive wrapped message. -/
theorem c8_error_envelope_witness :
    ("bogus_tool" ∉ toolNames) ∧
    ((c8Server.dispatchTool c8Fs c8Env "bogus_tool" c8Args).1 =
      .error ("Unknown tool: " ++ "bogus_tool")) ∧
    (c8Server.callToolHandler c8Fs c8Env "bogus_tool" c8Args =
      (⟨"Error: " ++ ("Unknown tool: " ++ "bogus_tool"), true⟩, c8Server, [])) ∧
    ("db://x" ∉ [resourceUriTables, resourceUriSchema]) ∧
    (c8Server.readResourceHandler c8Fs c8Env "db://x" =
      .error ("Failed to read resource '" ++ "db://x" ++ "': " ++
        ("Unknown resource URI: " ++ "db://x" ++ ". Available resources: " ++
          resourceUriTables ++ ", " ++ resourceUriSchema))) :=
  ⟨by decide,
    (c8_error_envelope c8Server c8Fs c8Env "bogus_tool" c8Args "db://x").2.2.1
      (by decide),
    (c8_error_envelope c8Server c8Fs c8Env "bogus_tool" c8Args "db://x").1
      ("Unknown tool: " ++ "bogus_tool") c8Server [] rfl,
    by decide,
    (c8_error_envelope c8Server c8Fs c8Env "bogus_tool" c8Args "db://x").2.2.2
      (by decide) rfl⟩
